import Mathlib

/-!
Shallow embedding of the rtl433-doorbell program (src/event.rs, src/main.rs,
src/cancelable.rs, src/server.rs) and verification of the specification's
claims about it.

Conventions of the embedding:
* Rust `u32` values are `Nat` with the bound `< 2^32` enforced where the code
  enforces it (at JSON decoding; the `u32` keys of the action map are opaque
  identifiers and carried as `Nat`).
* JSON text that has already been parsed is represented by the `Json`
  inductive (the parse tree of the line); `serde_json::from_str::<Event>` is
  `decodeEvent` on that tree.
* The `BTreeMap<u32, JoinHandle<()>>` of `Application.actions` is a list of
  (key, watcher-handle) pairs kept sorted by strictly increasing key — the
  ordered-map invariant.  `iter().next()` is `List.head?`.
* Stateful async code becomes explicit state passing; side effects (signals
  sent, joins awaited, lines logged, bytes written) are returned as traces.
-/

namespace Rtl433

/-! ## src/event.rs -/

/-- The decoded event (struct `Event` in src/event.rs).  `group`, `unit`,
`id` and `channel` are `u32` in the source; here `Nat`, with the `< 2^32`
range enforced by the decoder. -/
structure Event where
  time : String
  model : String
  group : Nat
  unit : Nat
  id : Nat
  channel : Nat
  state : Bool
deriving Repr, DecidableEq

/-- Parse tree of one JSON line emitted by the decoder subprocess. -/
inductive Json where
  | null : Json
  | bool (b : Bool) : Json
  | num (n : Int) : Json
  | str (s : String) : Json
  | arr (elems : List Json) : Json
  | obj (fields : List (String × Json)) : Json

/-- Deserializing a JSON value as a Rust `String` field. -/
def decodeString : Json → Except String String
  | .str s => .ok s
  | _ => .error "invalid type: expected a string"

/-- Deserializing a JSON value as a Rust `u32` field: the value must be an
integer in `[0, 2^32)`. -/
def decodeU32 : Json → Except String Nat
  | .num n => if 0 ≤ n ∧ n < 4294967296 then .ok n.toNat
              else .error "invalid value: integer out of range for u32"
  | _ => .error "invalid type: expected u32"

/-- `deserialize_state` from src/event.rs: the `state` field must be the
string "ON" (true) or "OFF" (false); anything else is a decode error. -/
def deserialize_state (j : Json) : Except String Bool :=
  match j with
  | .str s =>
    if s = "ON" then .ok true
    else if s = "OFF" then .ok false
    else .error ("invalid value: " ++ s ++ ", expected ON or OFF")
  | _ => .error "invalid type: expected a borrowed string"

/-- Partially filled field slots used while walking the JSON object's
fields, mirroring the derived serde `Deserialize` visitor for `Event`. -/
structure EventSlots where
  time : Option String := none
  model : Option String := none
  group : Option Nat := none
  unit : Option Nat := none
  id : Option Nat := none
  channel : Option Nat := none
  state : Option Bool := none

/-- The field dispatch of the derived serde visitor for `Event`: a field
name maps to one of the seven known fields, or to `none` (an unknown
field, ignored by default — no `deny_unknown_fields`). -/
inductive EventField where
  | time : EventField
  | model : EventField
  | group : EventField
  | unit : EventField
  | id : EventField
  | channel : EventField
  | state : EventField
deriving Repr, DecidableEq

/-- Key-string → field dispatch (the generated `Field` deserializer). -/
def fieldOf (key : String) : Option EventField :=
  if key = "time" then some .time
  else if key = "model" then some .model
  else if key = "group" then some .group
  else if key = "unit" then some .unit
  else if key = "id" then some .id
  else if key = "channel" then some .channel
  else if key = "state" then some .state
  else none

/-- Walk the object's fields in document order, filling the slots: a known
field is decoded at its declared type (a duplicate is an error), an unknown
field is skipped (serde's default, no `deny_unknown_fields`). -/
def readFields : List (String × Json) → EventSlots → Except String EventSlots
  | [], acc => .ok acc
  | (key, val) :: rest, acc =>
    match fieldOf key with
    | some .time =>
      match acc.time with
      | some _ => .error "duplicate field time"
      | none =>
        match decodeString val with
        | .error e => .error e
        | .ok v => readFields rest { acc with time := some v }
    | some .model =>
      match acc.model with
      | some _ => .error "duplicate field model"
      | none =>
        match decodeString val with
        | .error e => .error e
        | .ok v => readFields rest { acc with model := some v }
    | some .group =>
      match acc.group with
      | some _ => .error "duplicate field group"
      | none =>
        match decodeU32 val with
        | .error e => .error e
        | .ok v => readFields rest { acc with group := some v }
    | some .unit =>
      match acc.unit with
      | some _ => .error "duplicate field unit"
      | none =>
        match decodeU32 val with
        | .error e => .error e
        | .ok v => readFields rest { acc with unit := some v }
    | some .id =>
      match acc.id with
      | some _ => .error "duplicate field id"
      | none =>
        match decodeU32 val with
        | .error e => .error e
        | .ok v => readFields rest { acc with id := some v }
    | some .channel =>
      match acc.channel with
      | some _ => .error "duplicate field channel"
      | none =>
        match decodeU32 val with
        | .error e => .error e
        | .ok v => readFields rest { acc with channel := some v }
    | some .state =>
      match acc.state with
      | some _ => .error "duplicate field state"
      | none =>
        match deserialize_state val with
        | .error e => .error e
        | .ok v => readFields rest { acc with state := some v }
    | none => readFields rest acc

/-- `serde_json::from_str::<Event>` on a parsed line: the value must be a
JSON object, all seven fields must be present with the right types, `state`
through `deserialize_state`. -/
def decodeEvent : Json → Except String Event
  | .obj fields =>
    match readFields fields {} with
    | .error e => .error e
    | .ok s =>
    match s.time, s.model, s.group, s.unit, s.id, s.channel, s.state with
    | some t, some m, some g, some u, some i, some c, some st =>
      .ok { time := t, model := m, group := g, unit := u, id := i,
            channel := c, state := st }
    | _, _, _, _, _, _, _ => .error "missing field"
  | _ => .error "invalid type: expected struct Event"

/-- The JSON object of the spec's literal sample line, with its field order
(`time`, `model`, `id`, `channel`, `state`, `unit`, `group`) and the values
left as parameters. -/
def sampleFields (t m : String) (g u i c : Nat) (st : String) :
    List (String × Json) :=
  [("time", .str t), ("model", .str m), ("id", .num i),
   ("channel", .num c), ("state", .str st), ("unit", .num u),
   ("group", .num g)]

/-- `sampleFields` as a JSON object. -/
def sampleLine (t m : String) (g u i c : Nat) (st : String) : Json :=
  .obj (sampleFields t m g u i c st)

/-- Remove every field named `k` from a JSON object's field list (used to
state the missing-field cases). -/
def dropField (k : String) (fields : List (String × Json)) :
    List (String × Json) :=
  fields.filter (fun p => p.1 ≠ k)

/-! ## src/main.rs — options and the event filter (`Application::run`) -/

/-- The subset of the command-line `Options` that the core logic reads
(`skip_busy`, `kill_busy` and the four optional filter constraints).  The
remaining options (program name, arguments, `clear_env`, decoder command,
device) only shape the out-of-scope subprocess invocations. -/
structure Options where
  skip_busy : Bool
  kill_busy : Bool
  group : Option Nat
  unit : Option Nat
  id : Option Nat
  channel : Option Nat

/-- The filter in `Application::run` (src/main.rs lines 153–167): the event
is forwarded to `run_action` unless one of the four `continue` guards
fires, i.e. unless some set constraint compares unequal to the event's
field.  `opts.group.map (x == event.group) == some false` is the Rust guard
verbatim. -/
def forwarded (opts : Options) (e : Event) : Bool :=
  if opts.group.map (fun x => x == e.group) == some false then false
  else if opts.unit.map (fun x => x == e.unit) == some false then false
  else if opts.id.map (fun x => x == e.id) == some false then false
  else if opts.channel.map (fun x => x == e.channel) == some false then false
  else true

/-! ## src/main.rs — the action supervisor (`Application::run_action`)

`Application.actions : Mutex<BTreeMap<u32, JoinHandle<()>>>` is modelled as
an association list sorted by strictly increasing key; a watcher's
`JoinHandle` is an opaque `Nat` token. -/

/-- The action mapping: process identifier → completion-watcher handle. -/
abbrev ActionMap := List (Nat × Nat)

/-- `libc::SIGTERM`. -/
def SIGTERM : Nat := 15

/-- The ordered-map invariant of `BTreeMap`: keys strictly increasing. -/
def MapInv (m : ActionMap) : Prop :=
  List.Sorted (· < ·) (m.map Prod.fst)

/-- `BTreeMap::insert` for the sorted-list representation (insert at the
sorted position; an equal key replaces the value). -/
def btreeInsert (k v : Nat) : ActionMap → ActionMap
  | [] => [(k, v)]
  | (k', v') :: rest =>
    if k < k' then (k, v) :: (k', v') :: rest
    else if k = k' then (k, v) :: rest
    else (k', v') :: btreeInsert k v rest

/-- `BTreeMap::remove`. -/
def btreeRemove (k : Nat) (m : ActionMap) : ActionMap :=
  m.filter (fun e => e.1 ≠ k)

/-- `actions.iter().next()`, the first (least-key) entry of the map:
with the sorted representation it is the head of the list. -/
def btreeFirst? (m : ActionMap) : Option (Nat × Nat) :=
  m.head?

/-- Key of the first entry. -/
def btreeFirstKey? (m : ActionMap) : Option Nat :=
  (btreeFirst? m).map Prod.fst

/-- The kill-busy drain loop (src/main.rs lines 186–200): while the map is
non-empty, take the first entry's key, remove that entry, send the process
`SIGTERM`, and await its watcher's join handle.  Returns the final map
(always empty), the (pid, signal) pairs sent in order, and the pids whose
join handles were awaited, in order. -/
def drainBusy : ActionMap → ActionMap × List (Nat × Nat) × List Nat
  | [] => ([], [], [])
  | (pid, _) :: rest =>
    let r := drainBusy rest
    (r.1, (pid, SIGTERM) :: r.2.1, pid :: r.2.2)

/-- Outcome of spawning the action child process: `Command::spawn` fails,
or succeeds but `child.id()` yields no pid, or succeeds with a pid. -/
inductive SpawnOutcome where
  | fail : SpawnOutcome
  | noPid : SpawnOutcome
  | ok (pid : Nat) : SpawnOutcome
deriving Repr, DecidableEq

/-- How one call to `run_action` ends: normal return `Ok(())`, an error
return `Err(msg)`, or a `panic!` (the PID-collision invariant violation). -/
inductive RunResult where
  | ok : RunResult
  | err (msg : String) : RunResult
  | panicked (msg : String) : RunResult
deriving Repr, DecidableEq

/-- Everything observable about one `run_action` call: its result, the
action map it leaves behind, the (pid, signal) pairs sent by the kill-busy
drain, the watcher joins awaited, the pid inserted for the newly spawned
action (if any), and whether the skip-busy advisory line was logged. -/
structure SubmitOut where
  result : RunResult
  actions : ActionMap
  killed : List (Nat × Nat)
  awaited : List Nat
  spawned : Option Nat
  advisory : Bool
deriving Repr, DecidableEq

/-- `Application::run_action` (src/main.rs lines 177–236).  `spawn` is the
environment's answer to `action.spawn()` / `child.id()`; `watcher` is the
join-handle token for the watcher task spawned for the new child.  Steps,
exactly as in the source: (1) under `skip_busy`, a non-empty map means log
the advisory and return `Ok`; (2) under `kill_busy`, drain the map; (3)
spawn — failure to spawn or to get a pid is an `Err` return; (4) insert
pid → watcher, where a pid already present in the map is a `panic!`. -/
def run_action (opts : Options) (spawn : SpawnOutcome) (watcher : Nat)
    (actions : ActionMap) : SubmitOut :=
  if opts.skip_busy && !actions.isEmpty then
    { result := .ok, actions := actions, killed := [], awaited := [],
      spawned := none, advisory := true }
  else
    let d := if opts.kill_busy then drainBusy actions else (actions, [], [])
    match spawn with
    | .fail =>
      { result := .err "Failed to run action", actions := d.1,
        killed := d.2.1, awaited := d.2.2, spawned := none, advisory := false }
    | .noPid =>
      { result := .err "Failed to get PID of child", actions := d.1,
        killed := d.2.1, awaited := d.2.2, spawned := none, advisory := false }
    | .ok pid =>
      if (d.1.map Prod.fst).contains pid then
        { result := .panicked ("PID already in map: " ++ toString pid),
          actions := d.1, killed := d.2.1, awaited := d.2.2,
          spawned := some pid, advisory := false }
      else
        { result := .ok, actions := btreeInsert pid watcher d.1,
          killed := d.2.1, awaited := d.2.2, spawned := some pid,
          advisory := false }

/-! ## src/main.rs — the intake/filter loop (`Application::run`) -/

/-- One line read from the decoder's stdout, together with the
environment's answers for the spawn that would occur for it. -/
structure LineIn where
  json : Json
  spawn : SpawnOutcome
  watcher : Nat

/-- How the intake loop ends on a finite input stream: the stream was
exhausted normally (`Ok(())` after `next_line` returns `None`), a decode
failure made `run` return `Err` (fatal), or a `panic!` propagated. -/
inductive LoopResult where
  | ok : LoopResult
  | fatal (msg : String) : LoopResult
  | panicked (msg : String) : LoopResult
deriving Repr, DecidableEq

/-- Observable outcome of running the intake loop over a list of lines. -/
structure RunOut where
  result : LoopResult
  actions : ActionMap
  logged : List String
deriving Repr, DecidableEq

/-- `Application::run` (src/main.rs lines 142–175) on a finite stream of
lines: decode each line (a decode failure returns `Err` immediately —
fatal), drop it if the filter does not forward it, otherwise call
`run_action`; an `Err` from `run_action` is logged (`eprintln`) and the
loop continues with the next line. -/
def runLoop (opts : Options) : ActionMap → List LineIn → RunOut
  | m, [] => { result := .ok, actions := m, logged := [] }
  | m, l :: rest =>
    match decodeEvent l.json with
    | .error e =>
      { result := .fatal ("Failed to parse message from child: " ++ e),
        actions := m, logged := [] }
    | .ok ev =>
      if forwarded opts ev then
        let o := run_action opts l.spawn l.watcher m
        match o.result with
        | .panicked msg =>
          { result := .panicked msg, actions := o.actions, logged := [] }
        | .err msg =>
          let r := runLoop opts o.actions rest
          { result := r.result, actions := r.actions,
            logged := msg :: r.logged }
        | .ok => runLoop opts o.actions rest
      else runLoop opts m rest

/-! ## src/cancelable.rs

`CancelInner` holds the cancellation flag (`Cell<bool>`) and the
`AtomicWaker` slot, a waker being an opaque `Nat` token.  `cancel` and
`poll` are the state transformers of the two methods; the side effect of
waking a waker is returned as an `Option Nat` (the waker woken, if any),
since `AtomicWaker::wake` takes the registered waker out of the slot and
calls it. -/

/-- The error value of a cancelled computation (`struct Cancelled`). -/
structure Cancelled where
deriving Repr, DecidableEq

/-- The state shared between a `Cancelable` and its `CancelHandle`:
the `cancelled` flag and the registered waker slot. -/
structure CancelInner where
  cancelled : Bool
  waker : Option Nat
deriving Repr, DecidableEq

/-- The shared state as built by `CancelHandle::new` (flag unset, no waker
registered). -/
def CancelInner.new : CancelInner :=
  { cancelled := false, waker := none }

/-- `CancelHandle::cancel`: set the flag, then wake — `AtomicWaker::wake`
takes whatever waker is registered out of the slot and calls it.  Returns
the new shared state and the waker that was woken, if one was
registered. -/
def CancelHandle.cancel (s : CancelInner) : CancelInner × Option Nat :=
  ({ cancelled := true, waker := none }, s.waker)

/-- `Poll<α>` from the standard library. -/
inductive Poll (α : Type) where
  | ready (x : α) : Poll α
  | pending : Poll α
deriving Repr, DecidableEq

/-- `<Cancelable as Future>::poll` (src/cancelable.rs lines 73–84).
`inner` is what polling the wrapped future yields during this advancement,
and `w` is `context.waker()`.  First poll the inner future — if it is
ready, return `Ready(Ok(x))` without touching the shared state.  Otherwise
register `w` in the waker slot, and only then check the flag: set means
`Ready(Err(Cancelled))`, unset means `Pending`. -/
def Cancelable.poll {α : Type} (inner : Poll α) (w : Nat) (s : CancelInner) :
    Poll (Except Cancelled α) × CancelInner :=
  match inner with
  | .ready x => (.ready (.ok x), s)
  | .pending =>
    let s' : CancelInner := { s with waker := some w }
    if s'.cancelled then (.ready (.error {}), s')
    else (.pending, s')

/-! ## src/server.rs -/

/-- Capacity passed to `broadcast::channel` in `Server::new`
(src/server.rs line 39). -/
def broadcastChannelCapacity : Nat := 10

/-- Origin of a broadcast message (`enum Source`); a peer address is an
opaque token. -/
inductive Source where
  | internal : Source
  | socket (address : Nat) : Source
deriving Repr, DecidableEq

/-- `enum Message`. -/
inductive Message where
  | dingDong (source : Source) : Message
deriving Repr, DecidableEq

/-- What one `receiver.recv().await` yields in the write loop: the channel
closed, the receiver lagged behind the retention window by `n` messages,
or a message. -/
inductive RecvOutcome where
  | closed : RecvOutcome
  | lagged (n : Nat) : RecvOutcome
  | ok (m : Message) : RecvOutcome
deriving Repr, DecidableEq

/-- One operation performed on the connection's write half. -/
inductive WriteOp where
  | write (bytes : String) : WriteOp
  | flush : WriteOp
deriving Repr, DecidableEq

/-- `Server::run_write_loop` (src/server.rs lines 100–120) on a finite
stream of receive outcomes: `Closed` breaks out of the loop and returns
`Ok(())`; `Lagged` continues with the next receive; a message writes the
line "dingdong\n" and flushes.  Returns the write operations in order and
whether the loop returned (`true` exactly when `Closed` was received;
`false` means the finite stream ran out while the loop was still
waiting). -/
def run_write_loop : List RecvOutcome → List WriteOp × Bool
  | [] => ([], false)
  | .closed :: _ => ([], true)
  | .lagged _ :: rest => run_write_loop rest
  | .ok _ :: rest =>
    let r := run_write_loop rest
    (.write "dingdong\n" :: .flush :: r.1, r.2)

/-! ## Helper lemmas -/

/-- Dispatch results for the seven known field names. -/
theorem fieldOf_time : fieldOf "time" = some .time := rfl

/-- Dispatch of "model". -/
theorem fieldOf_model : fieldOf "model" = some .model := rfl

/-- Dispatch of "group". -/
theorem fieldOf_group : fieldOf "group" = some .group := rfl

/-- Dispatch of "unit". -/
theorem fieldOf_unit : fieldOf "unit" = some .unit := rfl

/-- Dispatch of "id". -/
theorem fieldOf_id : fieldOf "id" = some .id := rfl

/-- Dispatch of "channel". -/
theorem fieldOf_channel : fieldOf "channel" = some .channel := rfl

/-- Dispatch of "state". -/
theorem fieldOf_state : fieldOf "state" = some .state := rfl

/-- The state token "ON" decodes to `true`. -/
theorem deserialize_state_on : deserialize_state (.str "ON") = .ok true := rfl

/-- The state token "OFF" decodes to `false`. -/
theorem deserialize_state_off : deserialize_state (.str "OFF") = .ok false := rfl

/-- The kill-busy drain empties the map, sends `SIGTERM` to every recorded
pid in map order, and awaits every watcher in map order. -/
theorem drainBusy_eq (m : ActionMap) :
    drainBusy m = ([], m.map (fun e => (e.1, SIGTERM)), m.map Prod.fst) := by
  induction m with
  | nil => rfl
  | cons e rest ih => cases e; simp [drainBusy, ih]

/-- Decoding a `u32` field from an in-range natural number. -/
theorem decodeU32_natCast (n : Nat) (hn : n < 4294967296) :
    decodeU32 (.num n) = .ok n := by
  have h0 : (0 : Int) ≤ n := Int.natCast_nonneg n
  have h1 : (n : Int) < 4294967296 := by exact_mod_cast hn
  simp [decodeU32, h0, h1]

/-- The keys of `btreeInsert k v m` are `k` and the keys of `m`. -/
theorem btreeInsert_keys (k v : Nat) (m : ActionMap) (b : Nat)
    (hb : b ∈ (btreeInsert k v m).map Prod.fst) :
    b = k ∨ b ∈ m.map Prod.fst := by
  induction m with
  | nil =>
    rw [btreeInsert, List.map_cons] at hb
    rcases List.mem_cons.mp hb with h | h
    · exact Or.inl h
    · simp at h
  | cons e rest ih =>
    rcases e with ⟨k', v'⟩
    rw [btreeInsert] at hb
    rw [List.map_cons]
    split_ifs at hb with h1 h2
    · rw [List.map_cons] at hb
      rcases List.mem_cons.mp hb with h | h
      · exact Or.inl h
      · exact Or.inr h
    · rw [List.map_cons] at hb
      rcases List.mem_cons.mp hb with h | h
      · exact Or.inl h
      · exact Or.inr (List.mem_cons_of_mem _ h)
    · rw [List.map_cons] at hb
      rcases List.mem_cons.mp hb with h | h
      · exact Or.inr (List.mem_cons.mpr (Or.inl h))
      · rcases ih h with h | h
        · exact Or.inl h
        · exact Or.inr (List.mem_cons_of_mem _ h)

/-- `btreeInsert` preserves the ordered-map invariant. -/
theorem btreeInsert_mapInv (k v : Nat) (m : ActionMap) (h : MapInv m) :
    MapInv (btreeInsert k v m) := by
  induction m with
  | nil => simp [MapInv, btreeInsert]
  | cons e rest ih =>
    rcases e with ⟨k', v'⟩
    rw [MapInv, List.map_cons, List.sorted_cons] at h
    by_cases h1 : k < k'
    · rw [MapInv, btreeInsert]
      simp only [h1, if_pos, List.map_cons, List.sorted_cons]
      refine ⟨?_, ?_⟩
      · intro b hb
        rcases List.mem_cons.mp hb with rfl | hb
        · exact h1
        · exact lt_trans h1 (h.1 _ hb)
      · exact h
    · by_cases h2 : k = k'
      · subst h2
        rw [MapInv, btreeInsert]
        simp only [lt_irrefl, if_neg, not_false_iff, if_pos, List.map_cons,
          List.sorted_cons, if_true]
        exact ⟨h.1, h.2⟩
      · rw [MapInv, btreeInsert]
        simp only [h1, if_neg, not_false_iff, h2, List.map_cons,
          List.sorted_cons]
        refine ⟨?_, ih h.2⟩
        intro b hb
        rcases btreeInsert_keys k v rest b hb with rfl | hb'
        · omega
        · exact h.1 _ hb'

/-! ## Claim theorems -/

/-- C2: a successfully decoded event is forwarded to the supervisor if and
only if every one of the four optional constraints that is set equals the
corresponding `Event` field exactly; an unset constraint imposes no
restriction.  (`forwarded` is a pure Lean function of the options and the
event, matching the side-effect-free, stateless guards in
`Application::run`.) -/
theorem forwarded_iff_constraints_match (opts : Options) (e : Event) :
    forwarded opts e = true ↔
      (∀ g ∈ opts.group, g = e.group) ∧ (∀ u ∈ opts.unit, u = e.unit) ∧
      (∀ i ∈ opts.id, i = e.id) ∧ (∀ c ∈ opts.channel, c = e.channel) := by
  obtain ⟨sb, kb, og, ou, oi, oc⟩ := opts
  cases og <;> cases ou <;> cases oi <;> cases oc <;>
    simp [forwarded]

/-- C4: under the skip-busy policy, with a non-empty action mapping,
`run_action` logs the advisory line and returns `Ok` without spawning
anything, sending no signal, and leaving the mapping exactly as it was. -/
theorem run_action_skip_busy_drops_event (opts : Options)
    (spawn : SpawnOutcome) (w : Nat) (m : ActionMap)
    (hsb : opts.skip_busy = true) (hne : m ≠ []) :
    run_action opts spawn w m =
      { result := .ok, actions := m, killed := [], awaited := [],
        spawned := none, advisory := true } := by
  have hempty : m.isEmpty = false := by
    cases m with
    | nil => exact absurd rfl hne
    | cons a t => rfl
  simp [run_action, hsb, hempty]

/-- Witness for C4: one action (pid 5) recorded, skip-busy set, a second
event arrives — the call returns `Ok`, the mapping still holds exactly the
first action, and no process was spawned. -/
theorem run_action_skip_busy_drops_event_witness :
    run_action ⟨true, false, none, none, none, none⟩ (.ok 7) 0 [(5, 9)] =
      { result := .ok, actions := [(5, 9)], killed := [], awaited := [],
        spawned := none, advisory := true } :=
  run_action_skip_busy_drops_event ⟨true, false, none, none, none, none⟩
    (.ok 7) 0 [(5, 9)] rfl (by decide)

/-- C1: under the kill-busy policy, with `N ≥ 1` actions recorded,
`run_action` removes every entry, sends each removed pid `SIGTERM` and
awaits its watcher (in map order), and only then spawns the new action;
the call returns `Ok` and the mapping afterwards holds exactly the one
entry for the new pid. -/
theorem run_action_kill_busy_drains_then_spawns (opts : Options)
    (pid w : Nat) (m : ActionMap) (hkb : opts.kill_busy = true)
    (hsb : opts.skip_busy = false) (_hne : m ≠ []) :
    run_action opts (.ok pid) w m =
      { result := .ok, actions := [(pid, w)],
        killed := m.map (fun e => (e.1, SIGTERM)),
        awaited := m.map Prod.fst, spawned := some pid,
        advisory := false } := by
  simp [run_action, hsb, hkb, drainBusy_eq, btreeInsert]

/-- Witness for C1: two actions (pids 2 and 5) recorded, kill-busy set, a
new event whose action spawns as pid 9 — both old pids receive `SIGTERM`
and are awaited, and the mapping ends up holding exactly `(9, 3)`. -/
theorem run_action_kill_busy_drains_then_spawns_witness :
    run_action ⟨false, true, none, none, none, none⟩ (.ok 9) 3
        [(2, 0), (5, 1)] =
      { result := .ok, actions := [(9, 3)],
        killed := [(2, SIGTERM), (5, SIGTERM)], awaited := [2, 5],
        spawned := some 9, advisory := false } :=
  run_action_kill_busy_drains_then_spawns ⟨false, true, none, none, none,
    none⟩ 9 3 [(2, 0), (5, 1)] rfl rfl (by decide)

/-- C10 (implicit): the kill-busy drain is deterministic — the map is an
ordered map iterated in ascending key order, `iter().next()` yields the
numerically smallest key, so the kill sequence is exactly the recorded
pids in strictly ascending numeric order. -/
theorem kill_busy_drain_ascending (opts : Options) (spawn : SpawnOutcome)
    (w : Nat) (m : ActionMap) (hkb : opts.kill_busy = true)
    (hsb : opts.skip_busy = false) (hinv : MapInv m) :
    (run_action opts spawn w m).killed.map Prod.fst = m.map Prod.fst
    ∧ List.Sorted (· < ·) ((run_action opts spawn w m).killed.map Prod.fst)
    ∧ (∀ f, btreeFirstKey? m = some f → ∀ k ∈ m.map Prod.fst, f ≤ k) := by
  have hkilled : (run_action opts spawn w m).killed
      = m.map (fun e => (e.1, SIGTERM)) := by
    cases spawn with
    | fail => simp [run_action, hsb, hkb, drainBusy_eq]
    | noPid => simp [run_action, hsb, hkb, drainBusy_eq]
    | ok pid =>
      rw [run_action]
      simp only [hsb, hkb, Bool.false_and, Bool.false_eq_true, if_neg,
        not_false_iff, if_true, drainBusy_eq]
      split <;> rfl
  have hmain : (run_action opts spawn w m).killed.map Prod.fst
      = m.map Prod.fst := by
    rw [hkilled, List.map_map]
    rfl
  refine ⟨hmain, ?_, ?_⟩
  · rw [hmain]; exact hinv
  · intro f hf k hk
    cases m with
    | nil => simp [btreeFirstKey?, btreeFirst?] at hf
    | cons e rest =>
      have hfe : f = e.1 := by
        simp [btreeFirstKey?, btreeFirst?] at hf
        omega
      subst hfe
      rw [MapInv, List.map_cons, List.sorted_cons] at hinv
      rw [List.map_cons] at hk
      rcases List.mem_cons.mp hk with rfl | hk
      · exact le_refl _
      · exact le_of_lt (hinv.1 _ hk)

/-- Witness for C10: a sorted two-entry map `[(2,0),(5,1)]` is drained in
the order 2, 5 — ascending pids, the first being the smallest key. -/
theorem kill_busy_drain_ascending_witness :
    (run_action ⟨false, true, none, none, none, none⟩ (.ok 9) 3
        [(2, 0), (5, 1)]).killed.map Prod.fst = [2, 5]
    ∧ List.Sorted (· < ·)
        ((run_action ⟨false, true, none, none, none, none⟩ (.ok 9) 3
          [(2, 0), (5, 1)]).killed.map Prod.fst)
    ∧ (∀ f, btreeFirstKey? [(2, 0), (5, 1)] = some f →
        ∀ k ∈ ([(2, 0), (5, 1)] : ActionMap).map Prod.fst, f ≤ k) :=
  kill_busy_drain_ascending ⟨false, true, none, none, none, none⟩ (.ok 9)
    3 [(2, 0), (5, 1)] rfl rfl
    (by simp [MapInv, List.Sorted, List.pairwise_cons])

/-- C6: at insertion time after a successful spawn, a pid already present
as a key of the mapping triggers the `panic!` (fatal invariant violation);
otherwise the pid → watcher entry is inserted. -/
theorem run_action_insert_collision_panics (opts : Options) (pid w : Nat)
    (m : ActionMap) (hsb : opts.skip_busy = false) :
    (pid ∈ (if opts.kill_busy then ([] : ActionMap) else m).map Prod.fst →
      (run_action opts (.ok pid) w m).result
          = .panicked ("PID already in map: " ++ toString pid)
      ∧ (run_action opts (.ok pid) w m).actions
          = (if opts.kill_busy then ([] : ActionMap) else m))
    ∧ (pid ∉ (if opts.kill_busy then ([] : ActionMap) else m).map Prod.fst →
      (run_action opts (.ok pid) w m).result = .ok
      ∧ (run_action opts (.ok pid) w m).actions
          = btreeInsert pid w (if opts.kill_busy then ([] : ActionMap) else m)
      ∧ (run_action opts (.ok pid) w m).spawned = some pid) := by
  obtain ⟨sb, kb, og, ou, oi, oc⟩ := opts
  dsimp only at hsb ⊢
  subst hsb
  cases kb with
  | true =>
    refine ⟨?_, ?_⟩
    · intro hmem
      simp at hmem
    · intro _
      refine ⟨?_, ?_, ?_⟩ <;>
        simp [run_action, drainBusy_eq, btreeInsert]
  | false =>
    by_cases hmem : pid ∈ m.map Prod.fst
    · have hc : (m.map Prod.fst).contains pid = true := by
        simpa using hmem
      refine ⟨?_, ?_⟩
      · intro _
        have hstep : run_action ⟨false, false, og, ou, oi, oc⟩ (.ok pid) w m
            = { result := .panicked ("PID already in map: " ++ toString pid),
                actions := m, killed := [], awaited := [],
                spawned := some pid, advisory := false } := by
          simp [run_action]
          simpa using hmem
        rw [hstep]
        exact ⟨rfl, rfl⟩
      · intro hn
        exact absurd hmem hn
    · have hc : (m.map Prod.fst).contains pid = false := by
        simpa using hmem
      refine ⟨?_, ?_⟩
      · intro hmm
        exact absurd hmm hmem
      · intro _
        have hstep : run_action ⟨false, false, og, ou, oi, oc⟩ (.ok pid) w m
            = { result := .ok, actions := btreeInsert pid w m, killed := [],
                awaited := [], spawned := some pid, advisory := false } := by
          simp [run_action]
          simpa using hmem
        rw [hstep]
        exact ⟨rfl, rfl, rfl⟩

/-- Witness for C6: with the Allow policy and pid 5 already recorded, a new
spawn that reuses pid 5 panics; a fresh pid 7 is inserted instead. -/
theorem run_action_insert_collision_panics_witness :
    ((5 : Nat) ∈ (if false then ([] : ActionMap) else [(5, 9)]).map Prod.fst →
      (run_action ⟨false, false, none, none, none, none⟩ (.ok 5) 1
          [(5, 9)]).result = .panicked ("PID already in map: " ++ toString 5)
      ∧ (run_action ⟨false, false, none, none, none, none⟩ (.ok 5) 1
          [(5, 9)]).actions = (if false then ([] : ActionMap) else [(5, 9)]))
    ∧ ((5 : Nat) ∉ (if false then ([] : ActionMap) else [(5, 9)]).map Prod.fst →
      (run_action ⟨false, false, none, none, none, none⟩ (.ok 5) 1
          [(5, 9)]).result = .ok
      ∧ (run_action ⟨false, false, none, none, none, none⟩ (.ok 5) 1
          [(5, 9)]).actions
            = btreeInsert 5 1 (if false then ([] : ActionMap) else [(5, 9)])
      ∧ (run_action ⟨false, false, none, none, none, none⟩ (.ok 5) 1
          [(5, 9)]).spawned = some 5) :=
  run_action_insert_collision_panics ⟨false, false, none, none, none, none⟩
    5 1 [(5, 9)] rfl

/-- C5 counterexample: under kill-busy with one action (pid 5) recorded, a
spawn failure still leaves `submit` having removed that entry — the call
returns the recoverable error, but the mapping went from `[(5, 9)]` to
`[]`, so "the action mapping left unmutated (no entry inserted or
removed)" is false as stated. -/
theorem run_action_spawn_failure_counterexample :
    (run_action ⟨false, true, none, none, none, none⟩ .fail 7
        [(5, 9)]).result = .err "Failed to run action"
    ∧ (run_action ⟨false, true, none, none, none, none⟩ .fail 7
        [(5, 9)]).actions = []
    ∧ ([(5, 9)] : ActionMap) ≠ [] := by
  refine ⟨rfl, rfl, ?_⟩
  decide

/-- Helper for C5: when the skip-busy early return does not fire and the
spawn fails (either `spawn()` errors or `id()` yields no pid), `run_action`
returns the corresponding `Err`, inserts nothing, and the map it leaves is
exactly the post-drain map (`[]` under kill-busy, untouched otherwise). -/
theorem run_action_spawn_err (opts : Options) (m : ActionMap) (wt : Nat)
    (hskip : (opts.skip_busy && !m.isEmpty) = false) :
    run_action opts .fail wt m =
      { result := .err "Failed to run action",
        actions := if opts.kill_busy then [] else m,
        killed := if opts.kill_busy then m.map (fun e => (e.1, SIGTERM))
                  else [],
        awaited := if opts.kill_busy then m.map Prod.fst else [],
        spawned := none, advisory := false }
    ∧ run_action opts .noPid wt m =
      { result := .err "Failed to get PID of child",
        actions := if opts.kill_busy then [] else m,
        killed := if opts.kill_busy then m.map (fun e => (e.1, SIGTERM))
                  else [],
        awaited := if opts.kill_busy then m.map Prod.fst else [],
        spawned := none, advisory := false } := by
  cases hkb : opts.kill_busy with
  | true => constructor <;> simp [run_action, hskip, hkb, drainBusy_eq]
  | false => constructor <;> simp [run_action, hskip, hkb]

/-- C5 (amended): a spawn failure (or a missing pid for the spawned child)
makes `run_action` return a recoverable error for that event only, with no
entry inserted into the mapping — the mapping it leaves is exactly the
post-drain map, so it is fully unchanged except for entries the kill-busy
drain removed before spawning — and the intake loop logs the error and
continues with the next event rather than terminating. -/
theorem run_action_spawn_failure_recoverable (opts : Options)
    (m : ActionMap) (l : LineIn) (rest : List LineIn) (ev : Event)
    (hspawn : l.spawn = .fail ∨ l.spawn = .noPid)
    (hreach : opts.skip_busy = false ∨ m = [])
    (hdec : decodeEvent l.json = .ok ev)
    (hfwd : forwarded opts ev = true) :
    ∃ msg,
      (run_action opts l.spawn l.watcher m).result = .err msg
      ∧ (run_action opts l.spawn l.watcher m).actions
          = (if opts.kill_busy then [] else m)
      ∧ (run_action opts l.spawn l.watcher m).spawned = none
      ∧ runLoop opts m (l :: rest)
          = { result :=
                (runLoop opts (if opts.kill_busy then [] else m) rest).result,
              actions :=
                (runLoop opts (if opts.kill_busy then [] else m) rest).actions,
              logged := msg ::
                (runLoop opts (if opts.kill_busy then [] else m) rest).logged } := by
  obtain ⟨j, sp, wt⟩ := l
  dsimp only at hspawn hdec ⊢
  have hskip : (opts.skip_busy && !m.isEmpty) = false := by
    rcases hreach with h | rfl
    · simp [h]
    · simp
  have hra := run_action_spawn_err opts m wt hskip
  rcases hspawn with rfl | rfl
  · refine ⟨"Failed to run action", ?_, ?_, ?_, ?_⟩
    · rw [hra.1]
    · rw [hra.1]
    · rw [hra.1]
    · simp [runLoop, hdec, hfwd, hra.1]
  · refine ⟨"Failed to get PID of child", ?_, ?_, ?_, ?_⟩
    · rw [hra.2]
    · rw [hra.2]
    · rw [hra.2]
    · simp [runLoop, hdec, hfwd, hra.2]

/-- Witness for C5 (amended): a well-formed line whose action fails to
spawn — `run_action` returns the error, inserts nothing, and the loop logs
it and finishes the (empty) remainder normally. -/
theorem run_action_spawn_failure_recoverable_witness :
    ∃ msg,
      (run_action ⟨false, false, none, none, none, none⟩
          (LineIn.mk (sampleLine "t" "m" 1 2 3 4 "ON") .fail 0).spawn
          (LineIn.mk (sampleLine "t" "m" 1 2 3 4 "ON") .fail 0).watcher
          []).result = .err msg
      ∧ (run_action ⟨false, false, none, none, none, none⟩
          (LineIn.mk (sampleLine "t" "m" 1 2 3 4 "ON") .fail 0).spawn
          (LineIn.mk (sampleLine "t" "m" 1 2 3 4 "ON") .fail 0).watcher
          []).actions
          = (if (false : Bool) then [] else ([] : ActionMap))
      ∧ (run_action ⟨false, false, none, none, none, none⟩
          (LineIn.mk (sampleLine "t" "m" 1 2 3 4 "ON") .fail 0).spawn
          (LineIn.mk (sampleLine "t" "m" 1 2 3 4 "ON") .fail 0).watcher
          []).spawned = none
      ∧ runLoop ⟨false, false, none, none, none, none⟩ []
          [LineIn.mk (sampleLine "t" "m" 1 2 3 4 "ON") .fail 0]
          = { result :=
                (runLoop ⟨false, false, none, none, none, none⟩
                  (if (false : Bool) then [] else ([] : ActionMap)) []).result,
              actions :=
                (runLoop ⟨false, false, none, none, none, none⟩
                  (if (false : Bool) then [] else ([] : ActionMap)) []).actions,
              logged := msg ::
                (runLoop ⟨false, false, none, none, none, none⟩
                  (if (false : Bool) then [] else ([] : ActionMap)) []).logged } :=
  run_action_spawn_failure_recoverable ⟨false, false, none, none, none, none⟩
    [] (LineIn.mk (sampleLine "t" "m" 1 2 3 4 "ON") .fail 0) []
    ⟨"t", "m", 1, 2, 3, 4, true⟩ (Or.inl rfl) (Or.inl rfl) rfl rfl

/-- C7: each poll of the `Cancelable` wrapper first polls the inner
future — a ready inner result is returned as `Ready(Ok(x))` regardless of
the cancellation flag, with the shared state untouched; an inner
`Pending` first registers the current waker (the post-state holds it in
either outcome) and only then checks the flag, yielding
`Ready(Err(Cancelled))` if it is set and `Pending` otherwise.  In
particular, cancelling a freshly created, never-polled wrapper makes the
first poll yield `Ready(Err(Cancelled))`. -/
theorem cancelable_poll_registers_then_checks {α : Type} (x : α) (w : Nat)
    (s : CancelInner) :
    Cancelable.poll (.ready x) w s = (.ready (.ok x), s)
    ∧ (Cancelable.poll (α := α) .pending w s).2.waker = some w
    ∧ Cancelable.poll (α := α) .pending w s
        = (if s.cancelled then (.ready (.error {}), { s with waker := some w })
           else (.pending, { s with waker := some w }))
    ∧ Cancelable.poll (α := α) .pending w
          (CancelHandle.cancel CancelInner.new).1
        = (.ready (.error {}), { cancelled := true, waker := some w }) := by
  refine ⟨rfl, ?_, ?_, rfl⟩
  · cases hc : s.cancelled <;> simp [Cancelable.poll, hc]
  · cases hc : s.cancelled <;> simp [Cancelable.poll, hc]

/-- C8: `cancel()` is idempotent — a second call leaves the shared state
exactly as the first left it (the flag merely stays set) and wakes no
waker; every subsequent poll therefore behaves identically after one or
two cancels.  And polling a wrapper whose inner future is ready yields
`Ready(Ok(x))` whether or not a cancel happened, so cancelling after the
computation completed has no effect on that outcome. -/
theorem cancel_idempotent {α : Type} (s : CancelInner) :
    (CancelHandle.cancel (CancelHandle.cancel s).1).1
        = (CancelHandle.cancel s).1
    ∧ (CancelHandle.cancel (CancelHandle.cancel s).1).2 = none
    ∧ (∀ (inner : Poll α) (w : Nat),
        Cancelable.poll inner w (CancelHandle.cancel (CancelHandle.cancel s).1).1
          = Cancelable.poll inner w (CancelHandle.cancel s).1)
    ∧ (∀ (x : α) (w : Nat),
        (Cancelable.poll (.ready x) w (CancelHandle.cancel s).1).1
          = (Cancelable.poll (.ready x) w s).1) :=
  ⟨rfl, rfl, fun _ _ => rfl, fun _ _ => rfl⟩

/-- Witness for C8 (its conjuncts quantify over the inner poll outcome and
the waker): instantiated at a pending inner future and waker 4 after a
double cancel, and at a ready inner value 5 after one cancel. -/
theorem cancel_idempotent_witness :
    Cancelable.poll (α := Nat) .pending 4
        (CancelHandle.cancel (CancelHandle.cancel ⟨false, some 3⟩).1).1
      = Cancelable.poll (α := Nat) .pending 4
          (CancelHandle.cancel ⟨false, some 3⟩).1
    ∧ (Cancelable.poll (.ready (5 : Nat)) 4
        (CancelHandle.cancel ⟨false, some 3⟩).1).1
      = (Cancelable.poll (.ready (5 : Nat)) 4 ⟨false, some 3⟩).1 :=
  ⟨(cancel_idempotent ⟨false, some 3⟩).2.2.1 .pending 4,
   (cancel_idempotent ⟨false, some 3⟩).2.2.2 5 4⟩

/-- C9: the fan-out channel is created with a retention capacity of 10
outstanding messages, and the write loop treats a lag notification as a
pure resynchronization — it neither returns nor errors, it just continues
with the next receive — while every received message produces exactly one
"dingdong" line followed by a flush. -/
theorem write_loop_lag_resyncs (n : Nat) (rest : List RecvOutcome)
    (ms : List Message) :
    broadcastChannelCapacity = 10
    ∧ run_write_loop (.lagged n :: rest) = run_write_loop rest
    ∧ run_write_loop (ms.map .ok ++ [.closed])
        = ((ms.map fun _ => [WriteOp.write "dingdong\n", WriteOp.flush]).flatten,
           true) := by
  refine ⟨rfl, rfl, ?_⟩
  induction ms with
  | nil => rfl
  | cons msg tl ih => simp [run_write_loop, ih]


/-- One visitor step: a "time" field with an undecoded slot stores the
decoded string. -/
theorem readFields_step_time (val : Json) (t : String)
    (rest : List (String × Json)) (acc : EventSlots)
    (h1 : acc.time = none) (h2 : decodeString val = .ok t) :
    readFields (("time", val) :: rest) acc
      = readFields rest { acc with time := some t } := by
  rw [readFields, fieldOf_time, h1, h2]

/-- One visitor step for "model". -/
theorem readFields_step_model (val : Json) (m : String)
    (rest : List (String × Json)) (acc : EventSlots)
    (h1 : acc.model = none) (h2 : decodeString val = .ok m) :
    readFields (("model", val) :: rest) acc
      = readFields rest { acc with model := some m } := by
  rw [readFields, fieldOf_model, h1, h2]

/-- One visitor step for "group". -/
theorem readFields_step_group (val : Json) (g : Nat)
    (rest : List (String × Json)) (acc : EventSlots)
    (h1 : acc.group = none) (h2 : decodeU32 val = .ok g) :
    readFields (("group", val) :: rest) acc
      = readFields rest { acc with group := some g } := by
  rw [readFields, fieldOf_group, h1, h2]

/-- One visitor step for "unit". -/
theorem readFields_step_unit (val : Json) (u : Nat)
    (rest : List (String × Json)) (acc : EventSlots)
    (h1 : acc.unit = none) (h2 : decodeU32 val = .ok u) :
    readFields (("unit", val) :: rest) acc
      = readFields rest { acc with unit := some u } := by
  rw [readFields, fieldOf_unit, h1, h2]

/-- One visitor step for "id". -/
theorem readFields_step_id (val : Json) (i : Nat)
    (rest : List (String × Json)) (acc : EventSlots)
    (h1 : acc.id = none) (h2 : decodeU32 val = .ok i) :
    readFields (("id", val) :: rest) acc
      = readFields rest { acc with id := some i } := by
  rw [readFields, fieldOf_id, h1, h2]

/-- One visitor step for "channel". -/
theorem readFields_step_channel (val : Json) (c : Nat)
    (rest : List (String × Json)) (acc : EventSlots)
    (h1 : acc.channel = none) (h2 : decodeU32 val = .ok c) :
    readFields (("channel", val) :: rest) acc
      = readFields rest { acc with channel := some c } := by
  rw [readFields, fieldOf_channel, h1, h2]

/-- One visitor step for "state". -/
theorem readFields_step_state (val : Json) (b : Bool)
    (rest : List (String × Json)) (acc : EventSlots)
    (h1 : acc.state = none) (h2 : deserialize_state val = .ok b) :
    readFields (("state", val) :: rest) acc
      = readFields rest { acc with state := some b } := by
  rw [readFields, fieldOf_state, h1, h2]

/-- A failing "state" step aborts the whole walk with the decode error. -/
theorem readFields_step_state_err (val : Json) (e : String)
    (rest : List (String × Json)) (acc : EventSlots)
    (h1 : acc.state = none) (h2 : deserialize_state val = .error e) :
    readFields (("state", val) :: rest) acc = .error e := by
  rw [readFields, fieldOf_state, h1, h2]

/-- Any state token other than "ON"/"OFF" is rejected by
`deserialize_state`. -/
theorem deserialize_state_bad (st : String) (h1 : st ≠ "ON")
    (h2 : st ≠ "OFF") :
    deserialize_state (.str st)
      = .error ("invalid value: " ++ st ++ ", expected ON or OFF") := by
  rw [deserialize_state]
  rw [if_neg h1, if_neg h2]

/-- Decoding the sample-shaped object succeeds whenever the four integer
fields are in `u32` range and the state token decodes. -/
theorem decode_sample_ok (t m : String) (g u i c : Nat) (st : String)
    (b : Bool) (hg : g < 4294967296) (hu : u < 4294967296)
    (hi : i < 4294967296) (hc : c < 4294967296)
    (hst : deserialize_state (.str st) = .ok b) :
    decodeEvent (sampleLine t m g u i c st)
      = .ok { time := t, model := m, group := g, unit := u, id := i,
              channel := c, state := b } := by
  rw [sampleLine, sampleFields, decodeEvent,
      readFields_step_time (Json.str t) t _ _ rfl rfl,
      readFields_step_model (Json.str m) m _ _ rfl rfl,
      readFields_step_id (Json.num i) i _ _ rfl (decodeU32_natCast i hi),
      readFields_step_channel (Json.num c) c _ _ rfl
        (decodeU32_natCast c hc),
      readFields_step_state (Json.str st) b _ _ rfl hst,
      readFields_step_unit (Json.num u) u _ _ rfl (decodeU32_natCast u hu),
      readFields_step_group (Json.num g) g _ _ rfl (decodeU32_natCast g hg),
      readFields]

/-- Decoding the sample-shaped object with a bad state token fails with
the `deserialize_state` error. -/
theorem decode_sample_badstate (t m : String) (g u i c : Nat) (st : String)
    (hi : i < 4294967296) (hc : c < 4294967296)
    (h1 : st ≠ "ON") (h2 : st ≠ "OFF") :
    decodeEvent (sampleLine t m g u i c st)
      = .error ("invalid value: " ++ st ++ ", expected ON or OFF") := by
  rw [sampleLine, sampleFields, decodeEvent,
      readFields_step_time (Json.str t) t _ _ rfl rfl,
      readFields_step_model (Json.str m) m _ _ rfl rfl,
      readFields_step_id (Json.num i) i _ _ rfl (decodeU32_natCast i hi),
      readFields_step_channel (Json.num c) c _ _ rfl
        (decodeU32_natCast c hc),
      readFields_step_state_err (Json.str st) _ _ _ rfl
        (deserialize_state_bad st h1 h2)]

/-- The sample object with "time" removed fails with a missing field. -/
theorem decode_sample_missing_time (_t m : String) (g u i c : Nat)
    (hg : g < 4294967296) (hu : u < 4294967296) (hi : i < 4294967296)
    (hc : c < 4294967296) :
    decodeEvent (.obj [("model", .str m), ("id", .num i),
        ("channel", .num c), ("state", .str "ON"), ("unit", .num u),
        ("group", .num g)]) = .error "missing field" := by
  rw [decodeEvent,
      readFields_step_model (Json.str m) m _ _ rfl rfl,
      readFields_step_id (Json.num i) i _ _ rfl (decodeU32_natCast i hi),
      readFields_step_channel (Json.num c) c _ _ rfl
        (decodeU32_natCast c hc),
      readFields_step_state (Json.str "ON") true _ _ rfl
        deserialize_state_on,
      readFields_step_unit (Json.num u) u _ _ rfl (decodeU32_natCast u hu),
      readFields_step_group (Json.num g) g _ _ rfl (decodeU32_natCast g hg),
      readFields]

/-- The sample object with "model" removed fails with a missing field. -/
theorem decode_sample_missing_model (t _m : String) (g u i c : Nat)
    (hg : g < 4294967296) (hu : u < 4294967296) (hi : i < 4294967296)
    (hc : c < 4294967296) :
    decodeEvent (.obj [("time", .str t), ("id", .num i),
        ("channel", .num c), ("state", .str "ON"), ("unit", .num u),
        ("group", .num g)]) = .error "missing field" := by
  rw [decodeEvent,
      readFields_step_time (Json.str t) t _ _ rfl rfl,
      readFields_step_id (Json.num i) i _ _ rfl (decodeU32_natCast i hi),
      readFields_step_channel (Json.num c) c _ _ rfl
        (decodeU32_natCast c hc),
      readFields_step_state (Json.str "ON") true _ _ rfl
        deserialize_state_on,
      readFields_step_unit (Json.num u) u _ _ rfl (decodeU32_natCast u hu),
      readFields_step_group (Json.num g) g _ _ rfl (decodeU32_natCast g hg),
      readFields]

/-- The sample object with "group" removed fails with a missing field. -/
theorem decode_sample_missing_group (t m : String) (g u i c : Nat)
    (_hg : g < 4294967296) (hu : u < 4294967296) (hi : i < 4294967296)
    (hc : c < 4294967296) :
    decodeEvent (.obj [("time", .str t), ("model", .str m),
        ("id", .num i), ("channel", .num c), ("state", .str "ON"),
        ("unit", .num u)]) = .error "missing field" := by
  rw [decodeEvent,
      readFields_step_time (Json.str t) t _ _ rfl rfl,
      readFields_step_model (Json.str m) m _ _ rfl rfl,
      readFields_step_id (Json.num i) i _ _ rfl (decodeU32_natCast i hi),
      readFields_step_channel (Json.num c) c _ _ rfl
        (decodeU32_natCast c hc),
      readFields_step_state (Json.str "ON") true _ _ rfl
        deserialize_state_on,
      readFields_step_unit (Json.num u) u _ _ rfl (decodeU32_natCast u hu),
      readFields]

/-- The sample object with "unit" removed fails with a missing field. -/
theorem decode_sample_missing_unit (t m : String) (g u i c : Nat)
    (hg : g < 4294967296) (_hu : u < 4294967296) (hi : i < 4294967296)
    (hc : c < 4294967296) :
    decodeEvent (.obj [("time", .str t), ("model", .str m),
        ("id", .num i), ("channel", .num c), ("state", .str "ON"),
        ("group", .num g)]) = .error "missing field" := by
  rw [decodeEvent,
      readFields_step_time (Json.str t) t _ _ rfl rfl,
      readFields_step_model (Json.str m) m _ _ rfl rfl,
      readFields_step_id (Json.num i) i _ _ rfl (decodeU32_natCast i hi),
      readFields_step_channel (Json.num c) c _ _ rfl
        (decodeU32_natCast c hc),
      readFields_step_state (Json.str "ON") true _ _ rfl
        deserialize_state_on,
      readFields_step_group (Json.num g) g _ _ rfl (decodeU32_natCast g hg),
      readFields]

/-- The sample object with "id" removed fails with a missing field. -/
theorem decode_sample_missing_id (t m : String) (g u i c : Nat)
    (hg : g < 4294967296) (hu : u < 4294967296) (_hi : i < 4294967296)
    (hc : c < 4294967296) :
    decodeEvent (.obj [("time", .str t), ("model", .str m),
        ("channel", .num c), ("state", .str "ON"), ("unit", .num u),
        ("group", .num g)]) = .error "missing field" := by
  rw [decodeEvent,
      readFields_step_time (Json.str t) t _ _ rfl rfl,
      readFields_step_model (Json.str m) m _ _ rfl rfl,
      readFields_step_channel (Json.num c) c _ _ rfl
        (decodeU32_natCast c hc),
      readFields_step_state (Json.str "ON") true _ _ rfl
        deserialize_state_on,
      readFields_step_unit (Json.num u) u _ _ rfl (decodeU32_natCast u hu),
      readFields_step_group (Json.num g) g _ _ rfl (decodeU32_natCast g hg),
      readFields]

/-- The sample object with "channel" removed fails with a missing field. -/
theorem decode_sample_missing_channel (t m : String) (g u i c : Nat)
    (hg : g < 4294967296) (hu : u < 4294967296) (hi : i < 4294967296)
    (_hc : c < 4294967296) :
    decodeEvent (.obj [("time", .str t), ("model", .str m),
        ("id", .num i), ("state", .str "ON"), ("unit", .num u),
        ("group", .num g)]) = .error "missing field" := by
  rw [decodeEvent,
      readFields_step_time (Json.str t) t _ _ rfl rfl,
      readFields_step_model (Json.str m) m _ _ rfl rfl,
      readFields_step_id (Json.num i) i _ _ rfl (decodeU32_natCast i hi),
      readFields_step_state (Json.str "ON") true _ _ rfl
        deserialize_state_on,
      readFields_step_unit (Json.num u) u _ _ rfl (decodeU32_natCast u hu),
      readFields_step_group (Json.num g) g _ _ rfl (decodeU32_natCast g hg),
      readFields]

/-- The sample object with "state" removed fails with a missing field. -/
theorem decode_sample_missing_state (t m : String) (g u i c : Nat)
    (hg : g < 4294967296) (hu : u < 4294967296) (hi : i < 4294967296)
    (hc : c < 4294967296) :
    decodeEvent (.obj [("time", .str t), ("model", .str m),
        ("id", .num i), ("channel", .num c), ("unit", .num u),
        ("group", .num g)]) = .error "missing field" := by
  rw [decodeEvent,
      readFields_step_time (Json.str t) t _ _ rfl rfl,
      readFields_step_model (Json.str m) m _ _ rfl rfl,
      readFields_step_id (Json.num i) i _ _ rfl (decodeU32_natCast i hi),
      readFields_step_channel (Json.num c) c _ _ rfl
        (decodeU32_natCast c hc),
      readFields_step_unit (Json.num u) u _ _ rfl (decodeU32_natCast u hu),
      readFields_step_group (Json.num g) g _ _ rfl (decodeU32_natCast g hg),
      readFields]

/-- C3: a JSON object carrying exactly the seven fields with the right
types decodes to the corresponding `Event`, with `state == true` for the
token "ON" and `state == false` for "OFF" and every other field equal to
the literal value; any other state token, any missing field, and any
non-object JSON shape is a decode failure.  The last conjunct is the
spec's literal sample line. -/
theorem decodeEvent_spec (t m : String) (g u i c : Nat)
    (hg : g < 4294967296) (hu : u < 4294967296) (hi : i < 4294967296)
    (hc : c < 4294967296) :
    decodeEvent (sampleLine t m g u i c "ON")
        = .ok { time := t, model := m, group := g, unit := u, id := i,
                channel := c, state := true }
    ∧ decodeEvent (sampleLine t m g u i c "OFF")
        = .ok { time := t, model := m, group := g, unit := u, id := i,
                channel := c, state := false }
    ∧ (∀ st, st ≠ "ON" → st ≠ "OFF" →
        decodeEvent (sampleLine t m g u i c st)
          = .error ("invalid value: " ++ st ++ ", expected ON or OFF"))
    ∧ (∀ k ∈ ["time", "model", "group", "unit", "id", "channel", "state"],
        decodeEvent (.obj (dropField k (sampleFields t m g u i c "ON")))
          = .error "missing field")
    ∧ decodeEvent .null = .error "invalid type: expected struct Event"
    ∧ (∀ b, decodeEvent (.bool b)
        = .error "invalid type: expected struct Event")
    ∧ (∀ n, decodeEvent (.num n)
        = .error "invalid type: expected struct Event")
    ∧ (∀ s, decodeEvent (.str s)
        = .error "invalid type: expected struct Event")
    ∧ (∀ xs, decodeEvent (.arr xs)
        = .error "invalid type: expected struct Event")
    ∧ decodeEvent
          (sampleLine "2019-12-11 15:21:51" "Proove-Security" 1 2 3 4 "ON")
        = .ok { time := "2019-12-11 15:21:51", model := "Proove-Security",
                group := 1, unit := 2, id := 3, channel := 4,
                state := true } := by
  refine ⟨decode_sample_ok t m g u i c "ON" true hg hu hi hc
      deserialize_state_on,
    decode_sample_ok t m g u i c "OFF" false hg hu hi hc
      deserialize_state_off,
    fun st h1 h2 => decode_sample_badstate t m g u i c st hi hc h1 h2,
    ?_, rfl, fun b => rfl, fun n => rfl, fun s => rfl, fun xs => rfl,
    decode_sample_ok "2019-12-11 15:21:51" "Proove-Security" 1 2 3 4 "ON"
      true (by decide) (by decide) (by decide) (by decide)
      deserialize_state_on⟩
  intro k hk
  fin_cases hk
  · rw [show dropField "time" (sampleFields t m g u i c "ON")
        = [("model", Json.str m), ("id", Json.num i),
           ("channel", Json.num c), ("state", Json.str "ON"),
           ("unit", Json.num u), ("group", Json.num g)] from rfl]
    exact decode_sample_missing_time t m g u i c hg hu hi hc
  · rw [show dropField "model" (sampleFields t m g u i c "ON")
        = [("time", Json.str t), ("id", Json.num i),
           ("channel", Json.num c), ("state", Json.str "ON"),
           ("unit", Json.num u), ("group", Json.num g)] from rfl]
    exact decode_sample_missing_model t m g u i c hg hu hi hc
  · rw [show dropField "group" (sampleFields t m g u i c "ON")
        = [("time", Json.str t), ("model", Json.str m), ("id", Json.num i),
           ("channel", Json.num c), ("state", Json.str "ON"),
           ("unit", Json.num u)] from rfl]
    exact decode_sample_missing_group t m g u i c hg hu hi hc
  · rw [show dropField "unit" (sampleFields t m g u i c "ON")
        = [("time", Json.str t), ("model", Json.str m), ("id", Json.num i),
           ("channel", Json.num c), ("state", Json.str "ON"),
           ("group", Json.num g)] from rfl]
    exact decode_sample_missing_unit t m g u i c hg hu hi hc
  · rw [show dropField "id" (sampleFields t m g u i c "ON")
        = [("time", Json.str t), ("model", Json.str m),
           ("channel", Json.num c), ("state", Json.str "ON"),
           ("unit", Json.num u), ("group", Json.num g)] from rfl]
    exact decode_sample_missing_id t m g u i c hg hu hi hc
  · rw [show dropField "channel" (sampleFields t m g u i c "ON")
        = [("time", Json.str t), ("model", Json.str m), ("id", Json.num i),
           ("state", Json.str "ON"), ("unit", Json.num u),
           ("group", Json.num g)] from rfl]
    exact decode_sample_missing_channel t m g u i c hg hu hi hc
  · rw [show dropField "state" (sampleFields t m g u i c "ON")
        = [("time", Json.str t), ("model", Json.str m), ("id", Json.num i),
           ("channel", Json.num c), ("unit", Json.num u),
           ("group", Json.num g)] from rfl]
    exact decode_sample_missing_state t m g u i c hg hu hi hc

/-- Witness for C3, at the values of the spec's literal sample line
(and, for the failing conjuncts, the state token "MAYBE" and the dropped
field "unit"). -/
theorem decodeEvent_spec_witness :
    decodeEvent (sampleLine "2019-12-11 15:21:51" "Proove-Security"
        1 2 3 4 "OFF")
      = .ok { time := "2019-12-11 15:21:51", model := "Proove-Security",
              group := 1, unit := 2, id := 3, channel := 4, state := false }
    ∧ decodeEvent (sampleLine "2019-12-11 15:21:51" "Proove-Security"
        1 2 3 4 "MAYBE")
      = .error ("invalid value: " ++ "MAYBE" ++ ", expected ON or OFF")
    ∧ decodeEvent (.obj (dropField "unit"
        (sampleFields "2019-12-11 15:21:51" "Proove-Security" 1 2 3 4 "ON")))
      = .error "missing field" :=
  ⟨(decodeEvent_spec "2019-12-11 15:21:51" "Proove-Security" 1 2 3 4
      (by decide) (by decide) (by decide) (by decide)).2.1,
   (decodeEvent_spec "2019-12-11 15:21:51" "Proove-Security" 1 2 3 4
      (by decide) (by decide) (by decide) (by decide)).2.2.1 "MAYBE"
      (by decide) (by decide),
   (decodeEvent_spec "2019-12-11 15:21:51" "Proove-Security" 1 2 3 4
      (by decide) (by decide) (by decide) (by decide)).2.2.2.1 "unit"
      (by decide)⟩

end Rtl433
